import Mathlib

/-!
Verification of the Deepcision provider-integration layer.

This file shallowly embeds the parts of the repository that the checked
properties are about:

* `src/api_integration/__init__.py` — error taxonomy, `OpenRouterConfig`
  validators and retry constants;
* `src/api_integration/openrouter_api.py` — `_handle_error_response`,
  `call_api` retry loop, `chat_completion` payload construction,
  `format_response`, `chat`;
* `src/api_integration/deepseek_api.py` — `chat_completion` payload
  construction, `format_response`, `chat`;
* `src/api_integration/api_manager.py` — `add_api` / `get_api` registry;
* `src/agents/role_manager.py` — `RoleConfig`, `Agent`, `RoleManager`
  lifecycle;
* `src/api_integration/tokenizer/tokenizer_service.py` — tokenizer registry.

Python values that matter to the properties are modelled exactly:
parsed JSON bodies as a `Json` inductive, Python `dict.get` / subscription
with their exception behaviour (`AttributeError`, `KeyError`, `IndexError`,
`TypeError`), Python truthiness (`0.0`, `""`, `{}`, `[]` falsy), and
Python `str()` of parsed-JSON values. Floats are modelled as rationals:
the only float operations the code performs on the values under scrutiny
are comparison, `min`/`max` clamping and the `or`-falsiness test, all of
which agree with the rational model on the values involved (no NaNs or
overflow arise).
-/

set_option autoImplicit false

namespace Deepcision

/-- Parsed JSON values, as returned by Python's `json` module /
`response.json()`. JSON numbers are modelled as integers; no checked
property involves fractional JSON numbers. -/
inductive Json where
  | null
  | bool (b : Bool)
  | num (n : Int)
  | str (s : String)
  | arr (elems : List Json)
  | obj (fields : List (String × Json))

/-- The exception taxonomy of `src/api_integration/__init__.py`
(`OpenRouterError` subtypes, each carrying `message`, optional
`status_code` and `error_data` — Python stores `error_data or {}`, so the
data field is a `Json` that is `obj []` when nothing was passed), plus the
builtin Python exceptions the code can actually raise or catch
(`AttributeError`, `KeyError`, `IndexError`, `TypeError`, `ValueError`),
plus the bare `Exception(...)` that `deepseek_api.py` raises. -/
inductive Err where
  | configurationError (msg : String) (status : Option Nat) (data : Json)
  | authenticationError (msg : String) (status : Option Nat) (data : Json)
  | apiError (msg : String) (status : Option Nat) (data : Json)
  | networkError (msg : String) (status : Option Nat) (data : Json)
  | responseError (msg : String) (status : Option Nat) (data : Json)
  | attributeError (msg : String)
  | keyError (key : String)
  | indexError (msg : String)
  | typeError (msg : String)
  | valueError (msg : String)
  | genericException (msg : String)

mutual

/-- Python `repr` of a parsed-JSON value (used by `str()` on dicts/lists).
String escaping inside `repr` is not modelled; no checked property uses a
string needing escapes. -/
def pyRepr : Json → String
  | .null => "None"
  | .bool true => "True"
  | .bool false => "False"
  | .num n => toString n
  | .str s => "'" ++ s ++ "'"
  | .arr elems => "[" ++ pyReprList elems ++ "]"
  | .obj fields => "\x7b" ++ pyReprFields fields ++ "\x7d"

/-- Comma-separated `repr` of list elements. -/
def pyReprList : List Json → String
  | [] => ""
  | [x] => pyRepr x
  | x :: xs => pyRepr x ++ ", " ++ pyReprList xs

/-- Comma-separated `'key': repr(value)` rendering of dict fields. -/
def pyReprFields : List (String × Json) → String
  | [] => ""
  | [(k, v)] => "'" ++ k ++ "': " ++ pyRepr v
  | (k, v) :: fs => "'" ++ k ++ "': " ++ pyRepr v ++ ", " ++ pyReprFields fs

end

/-- Python `str()` of a parsed-JSON value: identity on strings, `repr`
otherwise. -/
def pyStr : Json → String
  | .str s => s
  | j => pyRepr j

/-- Is this parsed-JSON value Python's `None`? (Used for
`data.update(\x7bk: v for k, v in kwargs.items() if v is not None\x7d)`.) -/
def Json.isNull : Json → Bool
  | .null => true
  | _ => false

/-- Python truthiness of a parsed-JSON value (`None`, `False`, `0`, `""`,
`[]`, `{}` are falsy). -/
def Json.pyTruthy : Json → Bool
  | .null => false
  | .bool b => b
  | .num n => n != 0
  | .str s => !(s.isEmpty)
  | .arr elems => !elems.isEmpty
  | .obj fields => !fields.isEmpty

/-- Python `d.get(key, default)`. On a dict it never fails; on any other
parsed-JSON value it raises `AttributeError` (e.g. `'str' object has no
attribute 'get'`). The message for non-`str` receivers is abbreviated. -/
def pyDictGet (j : Json) (key : String) (dflt : Json) : Except Err Json :=
  match j with
  | .obj fields => .ok ((fields.lookup key).getD dflt)
  | .str _ => .error (.attributeError "'str' object has no attribute 'get'")
  | _ => .error (.attributeError "object has no attribute 'get'")

/-- Python subscription `j[key]` with a string key. -/
def pySubscrStr (j : Json) (key : String) : Except Err Json :=
  match j with
  | .obj fields =>
    match fields.lookup key with
    | some v => .ok v
    | none => .error (.keyError key)
  | .arr _ => .error (.typeError "list indices must be integers or slices, not str")
  | .str _ => .error (.typeError "string indices must be integers")
  | _ => .error (.typeError "object is not subscriptable")

/-- Python subscription `j[i]` with an integer index. A dict raises
`KeyError` (parsed-JSON dict keys are strings, so an integer key is never
present); a string yields its `i`-th character. -/
def pySubscrNat (j : Json) (i : Nat) : Except Err Json :=
  match j with
  | .arr elems =>
    match elems.get? i with
    | some v => .ok v
    | none => .error (.indexError "list index out of range")
  | .obj _ => .error (.keyError (toString i))
  | .str s =>
    match s.toList.get? i with
    | some c => .ok (.str (String.singleton c))
    | none => .error (.indexError "string index out of range")
  | _ => .error (.typeError "object is not subscriptable")

/-- Python attribute access on a parsed-JSON value. None of the JSON
runtime types carries the dataclass attributes (`name`, `description`, …)
that `chat` reads off a `RoleConfig`, so access always raises
`AttributeError`. -/
def pyAttr (j : Json) (attrName : String) : Except Err Json :=
  match j with
  | .obj _ => .error (.attributeError ("'dict' object has no attribute '" ++ attrName ++ "'"))
  | _ => .error (.attributeError ("object has no attribute '" ++ attrName ++ "'"))

/-! ## OpenRouter error classification — `OpenRouterAPI._handle_error_response`

```python
try:
    error_data = await response.json()
except:
    error_data = {"error": "Unknown error"}
error_msg = error_data.get("error", {}).get("message", str(error_data))
if response.status == 401: raise AuthenticationError("Invalid API key", status, error_data)
elif response.status == 402: raise APIError("Insufficient credits", status, error_data)
elif response.status == 429: raise APIError("Rate limit exceeded", status, error_data)
else: raise APIError(f"API request failed: \x7berror_msg\x7d", status, error_data)
```
-/

/-- A non-success HTTP response as classification sees it: a status code
and the JSON parse of the body (`none` when the body fails to parse). -/
structure HttpResponse where
  status : Nat
  bodyJson : Option Json

/-- The `error_data` value after the `try/except` around `response.json()`. -/
def errorDataOf (bodyJson : Option Json) : Json :=
  match bodyJson with
  | some j => j
  | none => .obj [("error", .str "Unknown error")]

/-- Embeds `error_data.get("error", \x7b\x7d).get("message", str(error_data))`,
with the second `.get` failing with `AttributeError` when the `error`
field is not a dict (in particular on the `"Unknown error"` fallback). -/
def extractErrorMsg (errorData : Json) : Except Err String := do
  let e ← pyDictGet errorData "error" (.obj [])
  let m ← pyDictGet e "message" (.str (pyStr errorData))
  pure (pyStr m)

/-- Embeds `OpenRouterAPI._handle_error_response`: the exception it raises for a
given non-success response. -/
def handleErrorResponse (resp : HttpResponse) : Err :=
  let errorData := errorDataOf resp.bodyJson
  match extractErrorMsg errorData with
  | .error e => e
  | .ok errorMsg =>
    if resp.status = 401 then
      .authenticationError "Invalid API key" (some resp.status) errorData
    else if resp.status = 402 then
      .apiError "Insufficient credits" (some resp.status) errorData
    else if resp.status = 429 then
      .apiError "Rate limit exceeded" (some resp.status) errorData
    else
      .apiError ("API request failed: " ++ errorMsg) (some resp.status) errorData

/-! ## OpenRouter retry loop — `OpenRouterAPI.call_api`

```python
retries = Config.MAX_RETRIES
while retries > 0:
    try:
        ... request ...
        if response.status == 200: return await response.json()
        if response.status == 429:
            retries -= 1
            if retries > 0:
                await asyncio.sleep(Config.RETRY_DELAY)
                continue
        await self._handle_error_response(response)
    except aiohttp.ClientError as e: raise NetworkError(f"Network request failed: \x7bstr(e)\x7d")
    except asyncio.TimeoutError: raise NetworkError("Request timed out")
raise APIError("Max retries exceeded")
```

The environment is modelled as a function from the attempt index to what
that HTTP attempt yields. Backoff sleeps are counted instead of timed. -/

/-- What one HTTP attempt yields. -/
inductive AttemptOutcome where
  | success (body : Json)
  | httpError (status : Nat) (bodyJson : Option Json)
  | clientError (msg : String)
  | timeoutError

/-- Result of `call_api`: the returned body or raised exception, plus the
number of `RETRY_DELAY` backoff sleeps performed. -/
structure CallResult where
  result : Except Err Json
  sleeps : Nat

/-- The `while retries > 0` loop body, structurally recursive on the retry
counter (which the loop decrements on every iteration it does not exit). -/
def callApiAux (env : Nat → AttemptOutcome) : Nat → Nat → Nat → CallResult
  | 0, _attempt, sleeps =>
    ⟨.error (.apiError "Max retries exceeded" none (.obj [])), sleeps⟩
  | r + 1, attempt, sleeps =>
    match env attempt with
    | .success body => ⟨.ok body, sleeps⟩
    | .clientError m =>
      ⟨.error (.networkError ("Network request failed: " ++ m) none (.obj [])), sleeps⟩
    | .timeoutError =>
      ⟨.error (.networkError "Request timed out" none (.obj [])), sleeps⟩
    | .httpError status bodyJson =>
      if status = 429 then
        if r > 0 then
          callApiAux env r (attempt + 1) (sleeps + 1)
        else
          ⟨.error (handleErrorResponse ⟨status, bodyJson⟩), sleeps⟩
      else
        ⟨.error (handleErrorResponse ⟨status, bodyJson⟩), sleeps⟩

/-- Embeds `OpenRouterAPI.call_api` with retry counter initialised to
`Config.MAX_RETRIES` (env default 3). -/
def callApi (maxRetries : Nat) (env : Nat → AttemptOutcome) : CallResult :=
  callApiAux env maxRetries 0 0

/-! ## Role configuration and chat-message composition

`src/agents/role_manager.py` declares `RoleConfig` as a dataclass; both
providers' `chat` read `role.role_config.name / .description /
.prompt_template / .temperature / .max_tokens`. Temperatures are modelled
as rationals, `max_tokens` as integers. -/

/-- The `RoleConfig` dataclass of `role_manager.py`. -/
structure RoleConfig where
  name : String
  description : String
  api_type : String
  prompt_template : String
  concurrent : Bool
  temperature : Option ℚ
  max_tokens : Option Int

/-- One `\x7b"role": ..., "content": ...\x7d` chat message. -/
structure Message where
  role : String
  content : String

/-- Replace every (left-to-right, non-overlapping) occurrence of the
ten-character `question` placeholder with the prompt. -/
def substQuestion (prompt : List Char) : List Char → List Char
  | '\x7b' :: 'q' :: 'u' :: 'e' :: 's' :: 't' :: 'i' :: 'o' :: 'n' :: '\x7d' :: rest =>
      prompt ++ substQuestion prompt rest
  | c :: rest => c :: substQuestion prompt rest
  | [] => []

/-- Python `template.format(question=prompt)` for templates whose only
format field is `question`: every occurrence of the placeholder is
replaced by the prompt. -/
def formatQuestion (template prompt : String) : String :=
  ⟨substQuestion prompt.data template.data⟩

/-- Python `min(a, b)` on floats: `b` when `b < a`, else `a`. -/
def pyMin (a b : ℚ) : ℚ := if Rat.blt b a then b else a

/-- Python `max(a, b)` on floats: `b` when `a < b`, else `a`. -/
def pyMax (a b : ℚ) : ℚ := if Rat.blt a b then b else a

/-- The two messages both providers' `chat` build:
system `f"You are \x7bname\x7d \x7bdescription\x7d"` and user
`prompt_template.format(question=prompt)`. -/
def composeMessages (rc : RoleConfig) (prompt : String) : List Message :=
  [⟨"system", "You are " ++ rc.name ++ " " ++ rc.description⟩,
   ⟨"user", formatQuestion rc.prompt_template prompt⟩]

/-! ## Outgoing chat-completion payloads

Only the payload fields the properties mention are kept as typed fields;
anything added via `data.update(kwargs)` lands in `extras`. -/

/-- The JSON payload `chat_completion` builds (`data` in the source). -/
structure ChatPayload where
  model : String
  messages : List Message
  temperature : ℚ
  max_tokens : Option Int
  stream : Option Bool
  extras : List (String × Json)

/-- Embeds `OpenRouterConfig.validate_temperature`:
`max(min(temp, MAX_TEMPERATURE), MIN_TEMPERATURE)` with the constants
`2.0` and `0.0`. -/
def validateTemperature (t : ℚ) : ℚ :=
  pyMax (pyMin t (mkRat 2 1)) (mkRat 0 1)

/-- Embeds `OpenRouterConfig.validate_max_tokens`: raise `ConfigurationError`
outside `[1, 32000]`, pass through inside. -/
def validateMaxTokens (tokens : Int) : Except Err Int :=
  if 1 ≤ tokens ∧ tokens ≤ 32000 then .ok tokens
  else .error (.configurationError "max_tokens must be between 1 and 32000" none (.obj []))

/-- An OpenRouter provider's resolved defaults (from
`OpenRouterConfig.DEFAULT_MODEL` / `DEFAULT_TEMPERATURE` /
`DEFAULT_MAX_TOKENS`, env defaults `"openai/gpt-4"`, `0.7`, `2000`). -/
structure ORConfig where
  model : String
  defaultTemperature : ℚ
  defaultMaxTokens : Int

/-- Embeds `OpenRouterAPI.chat_completion` up to the outgoing payload: reject an
empty message list, apply `validate_temperature` to a given temperature or
fall back to the default, apply `validate_max_tokens` to a given
`max_tokens` or fall back to the default. No optional feature arguments
(tools, transforms, …) are passed on the `chat` path; `kwargs` entries
with non-`None` values are added to the payload. -/
def openRouterChatCompletionPayload (cfg : ORConfig) (messages : List Message)
    (temperature : Option ℚ) (max_tokens : Option Int)
    (kwargs : List (String × Json)) : Except Err ChatPayload :=
  if messages.isEmpty then
    .error (.configurationError "Messages cannot be empty" none (.obj []))
  else
    let temp :=
      match temperature with
      | some t => validateTemperature t
      | none => cfg.defaultTemperature
    match max_tokens with
    | some t =>
      match validateMaxTokens t with
      | .ok mt =>
        .ok ⟨cfg.model, messages, temp, some mt, none, kwargs.filter (fun p => !p.2.isNull)⟩
      | .error e => .error e
    | none =>
      .ok ⟨cfg.model, messages, temp, some cfg.defaultMaxTokens, none,
           kwargs.filter (fun p => !p.2.isNull)⟩

/-- Embeds `OpenRouterAPI.chat` with no caller overrides, up to the outgoing
payload. `if not prompt or not role` rejects an empty prompt (`""` is
falsy; the `Agent` object is always truthy). -/
def openRouterChat (cfg : ORConfig) (prompt : String) (rc : RoleConfig) :
    Except Err ChatPayload :=
  if prompt = "" then
    .error (.configurationError "Prompt and role are required" none (.obj []))
  else
    openRouterChatCompletionPayload cfg (composeMessages rc prompt)
      rc.temperature rc.max_tokens []

/-- A DeepSeek provider's resolved defaults (`default_temperature` /
`default_max_tokens`, env defaults `0.7` / `2000` for `deepseek-chat`). -/
structure DSConfig where
  model : String
  defaultTemperature : ℚ
  defaultMaxTokens : Int

/-- Python `temperature or self.default_temperature`: `None` **and `0.0`**
are falsy, so both select the default. -/
def pyOrTemp (t : Option ℚ) (dflt : ℚ) : ℚ :=
  match t with
  | some x => if x.num == 0 then dflt else x
  | none => dflt

/-- Embeds `DeepSeekAPI.chat_completion` (non-streaming) up to the outgoing
payload: `"temperature": min(max(temperature or default, 0), 2)`;
`max_tokens` if given, else the default when it is non-zero (truthy);
`kwargs` entries with non-`None` values are added. -/
def deepSeekChatCompletionPayload (cfg : DSConfig) (messages : List Message)
    (temperature : Option ℚ) (max_tokens : Option Int) (stream : Bool)
    (kwargs : List (String × Json)) : ChatPayload :=
  let temp := pyMin (pyMax (pyOrTemp temperature cfg.defaultTemperature) (mkRat 0 1)) (mkRat 2 1)
  let mt : Option Int :=
    match max_tokens with
    | some t => some t
    | none => if cfg.defaultMaxTokens ≠ 0 then some cfg.defaultMaxTokens else none
  ⟨cfg.model, messages, temp, mt, some stream, kwargs.filter (fun p => !p.2.isNull)⟩

/-- Embeds `DeepSeekAPI.chat` with no caller overrides, up to the outgoing
payload. It forwards the role's temperature and `max_tokens` positionally
and passes `kwargs=kwargs`, so `chat_completion` receives one keyword
argument named `"kwargs"` whose value is the empty dict — which
`data.update` then copies into the payload (an empty dict is not `None`). -/
def deepSeekChat (cfg : DSConfig) (prompt : String) (rc : RoleConfig) : ChatPayload :=
  deepSeekChatCompletionPayload cfg (composeMessages rc prompt)
    rc.temperature rc.max_tokens false [("kwargs", Json.obj [])]

/-! ## `format_response` — both providers

```python
try:
    return raw_response["choices"][0]["message"]["content"]
except (KeyError, IndexError) as e:
    raise ResponseError(f"Invalid response format: \x7bstr(e)\x7d")   # OpenRouter
    raise Exception("Invalid response format")                        # DeepSeek
```
-/

/-- The subscription chain `raw["choices"][0]["message"]["content"]`. -/
def extractContent (raw : Json) : Except Err Json := do
  let choices ← pySubscrStr raw "choices"
  let first ← pySubscrNat choices 0
  let message ← pySubscrStr first "message"
  pySubscrStr message "content"

/-- Does `except (KeyError, IndexError)` catch this exception? -/
def isKeyOrIndexError : Err → Bool
  | .keyError _ => true
  | .indexError _ => true
  | _ => false

/-- Python `str(e)` for the exceptions the `except` clause can catch:
`str(KeyError(k))` is `repr(k)`, `str(IndexError(m))` is `m`. -/
def caughtExnStr : Err → String
  | .keyError k => "'" ++ k ++ "'"
  | .indexError m => m
  | _ => ""

/-- Embeds `OpenRouterAPI.format_response`. Uncaught exceptions (e.g. a
`TypeError` from subscripting a non-dict along the path) propagate. -/
def openRouterFormatResponse (raw : Json) : Except Err Json :=
  match extractContent raw with
  | .ok v => .ok v
  | .error e =>
    if isKeyOrIndexError e then
      .error (.responseError ("Invalid response format: " ++ caughtExnStr e) none (.obj []))
    else
      .error e

/-- Embeds `DeepSeekAPI.format_response`: same chain, but the caught case raises
a bare `Exception("Invalid response format")`, not a `ResponseError`. -/
def deepSeekFormatResponse (raw : Json) : Except Err Json :=
  match extractContent raw with
  | .ok v => .ok v
  | .error e =>
    if isKeyOrIndexError e then
      .error (.genericException "Invalid response format")
    else
      .error e

/-! ## Python dict assignment

`d[k] = v`: overwrite the entry for `k` if present, append otherwise.
Modelled on association lists; lookup order is preserved. -/

/-- Python `d[k] = v` on a dict modelled as an association list. -/
def dictSet {α : Type} (d : List (String × α)) (k : String) (v : α) :
    List (String × α) :=
  if (d.lookup k).isSome then
    d.map (fun p => if p.1 = k then (k, v) else p)
  else
    d ++ [(k, v)]

/-! ## API Manager — `src/api_integration/api_manager.py` -/

/-- A registered provider instance, identified by its `api_name` plus an
opaque identity tag distinguishing distinct instances. -/
structure ProviderInst where
  api_name : String
  tag : String
deriving DecidableEq

/-- Embeds `ApiManager.add_api`: `self.apis[api.api_name] = api`. -/
def addApi (apis : List (String × ProviderInst)) (api : ProviderInst) :
    List (String × ProviderInst) :=
  dictSet apis api.api_name api

/-- Embeds `ApiManager.get_api`: `return self.apis[key]` — a plain subscription,
which raises `KeyError` for an unknown name (despite the
`Optional[APIBase]` annotation and the docstring's `None otherwise`). -/
def getApi (apis : List (String × ProviderInst)) (key : String) :
    Except Err ProviderInst :=
  match apis.lookup key with
  | some api => .ok api
  | none => .error (.keyError key)

/-! ## Tokenizer Service — `tokenizer/tokenizer_service.py` -/

/-- A constructed tokenizer instance: which class it was instantiated
from, and the `model_dir` it was constructed with. -/
structure TokInstance where
  classTag : String
  modelDir : Option String
deriving DecidableEq

/-- The `TokenizerService` state: `_tokenizers` (the per-name singleton
cache) and `_tokenizer_classes` (name → class). Classes are identified by
tag. -/
structure TokSvcState where
  tokenizers : List (String × TokInstance)
  tokenizerClasses : List (String × String)
deriving DecidableEq

/-- Embeds `TokenizerService.__init__`: empty cache, `deepseek` pre-registered. -/
def tokSvcInit : TokSvcState :=
  ⟨[], [("deepseek", "DeepSeekTokenizer")]⟩

/-- Embeds `TokenizerService.register_tokenizer`: overwrite the class entry; the
instance cache is untouched. -/
def registerTokenizer (s : TokSvcState) (name : String) (classTag : String) :
    TokSvcState :=
  ⟨s.tokenizers, dictSet s.tokenizerClasses name classTag⟩

/-- Embeds `TokenizerService.get_tokenizer`: `ValueError` for an unregistered
name; otherwise instantiate and cache on first use, and return the cached
instance thereafter. Returns the instance and the post-call state. -/
def getTokenizer (s : TokSvcState) (name : String) (modelDir : Option String) :
    Except Err (TokInstance × TokSvcState) :=
  match s.tokenizerClasses.lookup name with
  | none => .error (.valueError ("Unsupported tokenizer: " ++ name))
  | some cls =>
    match s.tokenizers.lookup name with
    | some inst => .ok (inst, s)
    | none =>
      let inst : TokInstance := ⟨cls, modelDir⟩
      .ok (inst, ⟨dictSet s.tokenizers name inst, s.tokenizerClasses⟩)

/-- The service state after a `get_tokenizer` call (unchanged when the
call raises, since the raise happens before any mutation). -/
def getTokenizerState (s : TokSvcState) (name : String) (modelDir : Option String) :
    TokSvcState :=
  match getTokenizer s name modelDir with
  | .ok (_, s') => s'
  | .error _ => s

/-- The class tag of the instance a `get_tokenizer` call returns, `none`
when it raises. -/
def getTokenizerClassTag (s : TokSvcState) (name : String) (modelDir : Option String) :
    Option String :=
  match getTokenizer s name modelDir with
  | .ok (inst, _) => some inst.classTag
  | .error _ => none

/-! ## Role Manager — `src/agents/role_manager.py`

`load_templates` does `self.roles = json.load(f)`: the loaded values stay
**raw parsed-JSON dicts**; no `RoleConfig` is ever constructed from them.
An `Agent` therefore wraps whatever JSON value the template file held for
its role. The template file is modelled as parsed: `some fields` for a
successfully read and parsed JSON object, `none` for any I/O or parse
failure (caught and reported as `False`). -/

/-- The `Agent` object as `create_agent` actually builds it: its
`role_config` attribute holds the raw parsed-JSON template value. -/
structure PyAgent where
  role_config : Json

/-- The `RoleManager` state: `roles` (template-name → raw JSON value) and
`active_roles` (agent-id → agent). -/
structure RMState where
  roles : List (String × Json)
  activeRoles : List (String × PyAgent)

/-- Embeds `RoleManager.__init__`: both dicts empty. -/
def rmInit : RMState := ⟨[], []⟩

/-- Embeds `RoleManager.load_templates`: on success replace `roles` wholesale
and return `True`; on failure print and return `False`, leaving state
unchanged. -/
def loadTemplates (fileContent : Option (List (String × Json))) (s : RMState) :
    Bool × RMState :=
  match fileContent with
  | some fields => (true, ⟨fields, s.activeRoles⟩)
  | none => (false, s)

/-- Embeds `RoleManager.get_role`: `self.roles.get(role_name)`. -/
def getRole (s : RMState) (roleName : String) : Option Json :=
  s.roles.lookup roleName

/-- Embeds `RoleManager.create_agent`: `if role_config := self.get_role(name):`
— the walrus guard tests Python truthiness, so a missing role **or a
falsy (empty-dict) template** yields `None`. The new agent is *not*
recorded in `active_roles`. -/
def createAgent (s : RMState) (roleName : String) : Option PyAgent :=
  match getRole s roleName with
  | some rc => if rc.pyTruthy then some ⟨rc⟩ else none
  | none => none

/-- Embeds `RoleManager.terminate_agent`: look the id up in `active_roles`; call
the agent's no-op `terminate()` and return `True` if found, `False`
otherwise. State is unchanged either way (nothing is removed). -/
def terminateAgent (s : RMState) (agentId : String) : Bool :=
  (s.activeRoles.lookup agentId).isSome

/-- Embeds `RoleManager.terminate_all_agents`: calls each active agent's no-op
`terminate()`; the `active_roles` dict is not cleared, so the state is
unchanged. -/
def terminateAllAgents (s : RMState) : RMState := s

/-- The `RoleManager` states reachable from `__init__` through its own
operations. `create_agent` and `terminate_agent` do not modify state, so
only `load_templates` and `terminate_all_agents` appear as transitions. -/
inductive RMReachable : RMState → Prop where
  | init : RMReachable rmInit
  | load (fileContent : Option (List (String × Json))) {s : RMState} :
      RMReachable s → RMReachable (loadTemplates fileContent s).2
  | termAll {s : RMState} :
      RMReachable s → RMReachable (terminateAllAgents s)

/-! ## Observation helpers and concrete fixtures -/

/-- Does this `call_api` outcome raise an `APIError` with this message? -/
def resultApiErrMsgIs (r : Except Err Json) (m : String) : Bool :=
  match r with
  | .error (.apiError msg _ _) => msg == m
  | _ => false

/-- Is this exception an `AuthenticationError`? -/
def isAuthenticationErrorB : Err → Bool
  | .authenticationError _ _ _ => true
  | _ => false

/-- Does this `format_response` outcome raise a `ResponseError`? -/
def raisesResponseError : Except Err Json → Bool
  | .error (.responseError _ _ _) => true
  | _ => false

/-- The messages of the payload a chat call produced, `none` when it
raised instead. -/
def payloadMessages : Except Err ChatPayload → Option (List Message)
  | .ok p => some p.messages
  | .error _ => none

/-- The temperature of the payload a chat call produced, `none` when it
raised instead. -/
def payloadTemperature : Except Err ChatPayload → Option ℚ
  | .ok p => some p.temperature
  | .error _ => none

/-- A body of the shape
`\x7b"choices": [\x7b"message": \x7b"content": c\x7d\x7d]\x7d`. -/
def chatBody (c : Json) : Json :=
  .obj [("choices", .arr [.obj [("message", .obj [("content", c)])]])]

/-- An environment answering HTTP 429 with an empty-object body to every
attempt. -/
def envAll429 : Nat → AttemptOutcome := fun _ => .httpError 429 (some (.obj []))

/-- An environment answering HTTP 200 with body `"done"` immediately. -/
def envOk : Nat → AttemptOutcome := fun _ => .success (.str "done")

/-- A role: name `Analyst`, description `reviews data`, template
`Question: \x7bquestion\x7d`, temperature `0.0`, `max_tokens` 100. -/
def rc0 : RoleConfig :=
  ⟨"Analyst", "reviews data", "openrouter", "Question: \x7bquestion\x7d",
   false, some (mkRat 0 1), some 100⟩

/-- OpenRouter defaults as resolved from the environment defaults. -/
def orCfg0 : ORConfig := ⟨"openai/gpt-4", mkRat 7 10, 2000⟩

/-- DeepSeek defaults as resolved from the environment defaults. -/
def dsCfg0 : DSConfig := ⟨"deepseek-chat", mkRat 7 10, 2000⟩

/-- The tokenizer-service state after `register("t", A)`, a
`get_tokenizer("t")` lookup, then `register("t", B)`. -/
def tokS3 : TokSvcState :=
  registerTokenizer (getTokenizerState (registerTokenizer tokSvcInit "t" "A") "t" none) "t" "B"

/-- A role-template JSON value with all `RoleConfig` fields present. -/
def analystTemplate : Json :=
  .obj [("name", .str "Analyst"), ("description", .str "reviews data"),
        ("api_type", .str "openrouter"),
        ("prompt_template", .str "Question: \x7bquestion\x7d"),
        ("concurrent", .bool false), ("temperature", .num 1), ("max_tokens", .num 100)]

/-- The role-manager state after successfully loading one template. -/
def rmLoaded : RMState :=
  (loadTemplates (some [("analyst", analystTemplate)]) rmInit).2

/-! ## Helper lemmas -/

/-- Skipping `k` leading 429 responses: each consumes one retry slot and
one backoff sleep, and a 200 on attempt `k` returns its parsed body. -/
lemma callApiAux_skip_429s (env : Nat → AttemptOutcome) (bodies : Nat → Option Json)
    (body : Json) :
    ∀ (k retries attempt sleeps : Nat), k < retries →
      (∀ i, i < k → env (attempt + i) = .httpError 429 (bodies (attempt + i))) →
      env (attempt + k) = .success body →
      callApiAux env retries attempt sleeps = ⟨.ok body, sleeps + k⟩ := by
  intro k
  induction k with
  | zero =>
    intro retries attempt sleeps hk _ hok
    obtain ⟨r, rfl⟩ : ∃ r, retries = r + 1 := ⟨retries - 1, by omega⟩
    have hok' : env attempt = .success body := by simpa using hok
    simp [callApiAux, hok']
  | succ k ih =>
    intro retries attempt sleeps hk h429 hok
    obtain ⟨r, rfl⟩ : ∃ r, retries = r + 1 := ⟨retries - 1, by omega⟩
    have h0 : env attempt = .httpError 429 (bodies attempt) := by
      simpa using h429 0 (by omega)
    have hr : 0 < r := by omega
    have hrec := ih r (attempt + 1) (sleeps + 1) (by omega)
      (fun i hi => by
        have h := h429 (i + 1) (by omega)
        have harith : attempt + (i + 1) = attempt + 1 + i := by omega
        rwa [harith] at h)
      (by
        have harith : attempt + (k + 1) = attempt + 1 + k := by omega
        rwa [harith] at hok)
    have hstep : callApiAux env (r + 1) attempt sleeps
        = callApiAux env r (attempt + 1) (sleeps + 1) := by
      simp [callApiAux, h0, hr]
    rw [hstep, hrec]
    have harith : sleeps + 1 + k = sleeps + (k + 1) := by omega
    rw [harith]

/-- When attempts `0..n` (i.e. all `n + 1` remaining attempts) answer
429, the loop performs `n` sleeps and classifies the final 429 response
via `_handle_error_response`. -/
lemma callApiAux_exhaust_429s (env : Nat → AttemptOutcome) (bodies : Nat → Option Json) :
    ∀ (n attempt sleeps : Nat),
      (∀ i, i ≤ n → env (attempt + i) = .httpError 429 (bodies (attempt + i))) →
      callApiAux env (n + 1) attempt sleeps =
        ⟨.error (handleErrorResponse ⟨429, bodies (attempt + n)⟩), sleeps + n⟩ := by
  intro n
  induction n with
  | zero =>
    intro attempt sleeps h
    have h0 : env attempt = .httpError 429 (bodies attempt) := by
      simpa using h 0 (by omega)
    simp [callApiAux, h0]
  | succ n ih =>
    intro attempt sleeps h
    have h0 : env attempt = .httpError 429 (bodies attempt) := by
      simpa using h 0 (by omega)
    have hrec := ih (attempt + 1) (sleeps + 1)
      (fun i hi => by
        have hh := h (i + 1) (by omega)
        have harith : attempt + (i + 1) = attempt + 1 + i := by omega
        rwa [harith] at hh)
    have hstep : callApiAux env (n + 1 + 1) attempt sleeps
        = callApiAux env (n + 1) (attempt + 1) (sleeps + 1) := by
      simp [callApiAux, h0]
    rw [hstep, hrec]
    have h1 : attempt + 1 + n = attempt + (n + 1) := by omega
    have h2 : sleeps + 1 + n = sleeps + (n + 1) := by omega
    rw [h1, h2]

/-- A 429 response whose message extraction succeeds is classified as
`APIError("Rate limit exceeded")`. -/
lemma handleErrorResponse_429 (bodyJson : Option Json) (msg : String)
    (h : extractErrorMsg (errorDataOf bodyJson) = .ok msg) :
    handleErrorResponse ⟨429, bodyJson⟩
      = .apiError "Rate limit exceeded" (some 429) (errorDataOf bodyJson) := by
  simp [handleErrorResponse, h]

/-- Overwriting the entry for `k` makes lookup of `k` yield the new
value, provided an entry was present. -/
lemma lookup_map_overwrite {α : Type} (d : List (String × α)) (k : String) (v : α) :
    (d.lookup k).isSome = true →
    (d.map (fun p => if p.1 = k then (k, v) else p)).lookup k = some v := by
  induction d with
  | nil => simp [List.lookup]
  | cons p d ih =>
    by_cases hp : p.1 = k
    · intro _
      simp only [List.map_cons, if_pos hp]
      simp [List.lookup]
    · intro h
      have hne : (k == p.1) = false := beq_eq_false_iff_ne.mpr (fun hh => hp hh.symm)
      have h' : (d.lookup k).isSome = true := by
        rcases p with ⟨a, b⟩
        simpa [List.lookup, hne] using h
      simp only [List.map_cons, if_neg hp]
      rcases p with ⟨a, b⟩
      simpa [List.lookup, hne] using ih h'

/-- Appending a fresh entry for `k` makes lookup of `k` yield it. -/
lemma lookup_append_single {α : Type} (d : List (String × α)) (k : String) (v : α) :
    d.lookup k = none →
    (d ++ [(k, v)]).lookup k = some v := by
  induction d with
  | nil => intro _; simp [List.lookup]
  | cons p d ih =>
    obtain ⟨a, b⟩ := p
    intro h
    by_cases hp : k = a
    · exfalso
      subst hp
      simp [List.lookup] at h
    · have hne : (k == a) = false := beq_eq_false_iff_ne.mpr hp
      have h' : d.lookup k = none := by simpa [List.lookup, hne] using h
      simpa [List.lookup, hne] using ih h'

/-- Assignment `d[k] = v` followed by lookup of `k` yields `v`. -/
lemma lookup_dictSet_self {α : Type} (d : List (String × α)) (k : String) (v : α) :
    (dictSet d k v).lookup k = some v := by
  unfold dictSet
  by_cases h : (d.lookup k).isSome
  · rw [if_pos h]
    exact lookup_map_overwrite d k v h
  · rw [if_neg h]
    refine lookup_append_single d k v ?_
    cases hl : d.lookup k with
    | none => rfl
    | some x => rw [hl] at h; simp at h

/-! ## Claims -/

/-- C1 (amended): if the endpoint answers 429 exactly `k < MAX_RETRIES`
times and then 200, `call_api` returns the parsed body after exactly `k`
backoff sleeps; if it answers 429 on all `MAX_RETRIES ≥ 1` attempts (with
bodies whose message extraction succeeds), `call_api` raises
`APIError("Rate limit exceeded")` — classified by
`_handle_error_response`, not the dead final
`APIError("Max retries exceeded")` raise — after `MAX_RETRIES - 1`
sleeps. -/
theorem call_api_retry_policy :
    (∀ (maxRetries k : Nat) (env : Nat → AttemptOutcome) (bodies : Nat → Option Json)
       (body : Json),
      k < maxRetries →
      (∀ i, i < k → env i = .httpError 429 (bodies i)) →
      env k = .success body →
      callApi maxRetries env = ⟨.ok body, k⟩)
    ∧ (∀ (maxRetries : Nat) (env : Nat → AttemptOutcome) (bodies : Nat → Option Json)
         (msg : String),
      0 < maxRetries →
      (∀ i, i < maxRetries → env i = .httpError 429 (bodies i)) →
      extractErrorMsg (errorDataOf (bodies (maxRetries - 1))) = .ok msg →
      callApi maxRetries env =
        ⟨.error (.apiError "Rate limit exceeded" (some 429)
            (errorDataOf (bodies (maxRetries - 1)))),
         maxRetries - 1⟩) := by
  constructor
  · intro maxRetries k env bodies body hk h429 hok
    have := callApiAux_skip_429s env bodies body k maxRetries 0 0 hk
      (fun i hi => by simpa using h429 i hi) (by simpa using hok)
    simpa [callApi] using this
  · intro maxRetries env bodies msg hpos h429 hmsg
    obtain ⟨n, rfl⟩ : ∃ n, maxRetries = n + 1 := ⟨maxRetries - 1, by omega⟩
    have := callApiAux_exhaust_429s env bodies n 0 0
      (fun i hi => by simpa using h429 i (by omega))
    simp only [callApi, this, Nat.zero_add, Nat.add_sub_cancel]
    rw [handleErrorResponse_429 (bodies n) msg (by simpa using hmsg)]

/-- C1 witness: an immediate 200 succeeds with no sleeps; a single
all-429 budget of 1 fails with `APIError("Rate limit exceeded")` and no
sleeps. -/
theorem call_api_retry_policy_witness :
    callApi 3 envOk = ⟨.ok (.str "done"), 0⟩
    ∧ callApi 1 envAll429 =
        ⟨.error (.apiError "Rate limit exceeded" (some 429) (.obj [])), 0⟩ :=
  ⟨call_api_retry_policy.1 3 0 envOk (fun _ => none) (.str "done") (by decide)
      (fun i hi => absurd hi (Nat.not_lt_zero i)) rfl,
   call_api_retry_policy.2 1 envAll429 (fun _ => some (.obj [])) "\x7b\x7d" (by decide)
      (fun _ _ => rfl) rfl⟩

/-- C1 counterexample: with `MAX_RETRIES = 3` and every attempt answering
429, `call_api` fails with `APIError("Rate limit exceeded")` (after 2
sleeps), not with `APIError("Max retries exceeded")` as the claim
states. -/
theorem call_api_exhaustion_message_refuted :
    callApi 3 envAll429 =
      ⟨.error (.apiError "Rate limit exceeded" (some 429) (.obj [])), 2⟩
    ∧ resultApiErrMsgIs (callApi 3 envAll429).result "Max retries exceeded" = false :=
  ⟨rfl, rfl⟩

/-- C2 (amended): for every non-success response whose error-message
extraction succeeds (its parsed body's `error` field, when present, is a
JSON object — otherwise the extraction itself raises `AttributeError`
before any classification), the status mapping is: 401 →
`AuthenticationError("Invalid API key")`, 402 →
`APIError("Insufficient credits")`, 429 →
`APIError("Rate limit exceeded")`, anything else →
`APIError("API request failed: " + extracted message)`. -/
theorem handle_error_response_status_mapping (status : Nat) (bodyJson : Option Json)
    (msg : String)
    (hmsg : extractErrorMsg (errorDataOf bodyJson) = .ok msg) :
    (status = 401 → handleErrorResponse ⟨status, bodyJson⟩
        = .authenticationError "Invalid API key" (some 401) (errorDataOf bodyJson))
    ∧ (status = 402 → handleErrorResponse ⟨status, bodyJson⟩
        = .apiError "Insufficient credits" (some 402) (errorDataOf bodyJson))
    ∧ (status = 429 → handleErrorResponse ⟨status, bodyJson⟩
        = .apiError "Rate limit exceeded" (some 429) (errorDataOf bodyJson))
    ∧ (status ≠ 401 → status ≠ 402 → status ≠ 429 →
        handleErrorResponse ⟨status, bodyJson⟩
          = .apiError ("API request failed: " ++ msg) (some status) (errorDataOf bodyJson)) := by
  refine ⟨?_, ?_, ?_, ?_⟩
  · intro h
    subst h
    simp [handleErrorResponse, hmsg]
  · intro h
    subst h
    simp [handleErrorResponse, hmsg]
  · intro h
    subst h
    simp [handleErrorResponse, hmsg]
  · intro h1 h2 h3
    simp [handleErrorResponse, hmsg, h1, h2, h3]

/-- C2 witness: a 401 with a well-formed error body is classified as
`AuthenticationError("Invalid API key")`. -/
theorem handle_error_response_status_mapping_witness :
    handleErrorResponse ⟨401, some (.obj [("error", .obj [("message", .str "nope")])])⟩
      = .authenticationError "Invalid API key" (some 401)
          (.obj [("error", .obj [("message", .str "nope")])]) :=
  (handle_error_response_status_mapping 401
    (some (.obj [("error", .obj [("message", .str "nope")])])) "nope" rfl).1 rfl

/-- C2 counterexample: a 401 response whose parsed body is
`\x7b"error": "boom"\x7d` (the `error` field a string, not an object)
makes the message extraction raise `AttributeError`, so classification
never reaches the 401 branch and no `AuthenticationError` is raised. -/
theorem handle_error_response_401_not_authentication_error :
    handleErrorResponse ⟨401, some (.obj [("error", .str "boom")])⟩
      = .attributeError "'str' object has no attribute 'get'"
    ∧ isAuthenticationErrorB
        (handleErrorResponse ⟨401, some (.obj [("error", .str "boom")])⟩) = false :=
  ⟨rfl, rfl⟩

/-- C3 (amended): both providers' `format_response` return the content
`c` on a body of the shape
`\x7b"choices": [\x7b"message": \x7b"content": c\x7d\x7d]\x7d`; when the
path is absent because a key is missing or the index is out of range,
OpenRouter raises `ResponseError("Invalid response format: " + str(e))`
while DeepSeek raises a plain `Exception("Invalid response format")`. -/
theorem format_response_extraction :
    (∀ c : Json,
      openRouterFormatResponse (chatBody c) = .ok c
      ∧ deepSeekFormatResponse (chatBody c) = .ok c)
    ∧ (∀ (raw : Json) (e : Err),
      extractContent raw = .error e → isKeyOrIndexError e = true →
      openRouterFormatResponse raw
        = .error (.responseError ("Invalid response format: " ++ caughtExnStr e) none (.obj []))
      ∧ deepSeekFormatResponse raw = .error (.genericException "Invalid response format")) := by
  constructor
  · intro c
    exact ⟨rfl, rfl⟩
  · intro raw e he hke
    constructor
    · simp [openRouterFormatResponse, he, hke]
    · simp [deepSeekFormatResponse, he, hke]

/-- C3 witness: `"hello"` round-trips through OpenRouter's and DeepSeek's
`format_response`, and a body missing `choices` raises `ResponseError`
on OpenRouter. -/
theorem format_response_extraction_witness :
    openRouterFormatResponse (chatBody (.str "hello")) = .ok (.str "hello")
    ∧ deepSeekFormatResponse (chatBody (.str "hello")) = .ok (.str "hello")
    ∧ openRouterFormatResponse (.obj [])
        = .error (.responseError "Invalid response format: 'choices'" none (.obj [])) :=
  ⟨(format_response_extraction.1 (.str "hello")).1,
   (format_response_extraction.1 (.str "hello")).2,
   (format_response_extraction.2 (.obj []) (.keyError "choices") rfl rfl).1⟩

/-- C3 counterexample: on a body with an empty `choices` list, DeepSeek's
`format_response` raises a plain `Exception("Invalid response format")`,
not a `ResponseError` as the claim states for every provider. -/
theorem deepseek_format_response_not_response_error :
    deepSeekFormatResponse (.obj [("choices", .arr [])])
      = .error (.genericException "Invalid response format")
    ∧ raisesResponseError (deepSeekFormatResponse (.obj [("choices", .arr [])])) = false :=
  ⟨rfl, rfl⟩

/-- C4 (amended): both providers' `chat` compose exactly the two messages
system = `"You are " + name + " " + description` and user =
`prompt_template` with `question` replaced by the prompt — DeepSeek for
every prompt; OpenRouter for every non-empty prompt (it rejects `""` with
`ConfigurationError`) whenever the role's `max_tokens` is unset or within
the validated range. -/
theorem chat_composes_role_messages (orCfg : ORConfig) (dsCfg : DSConfig)
    (rc : RoleConfig) (p : String) :
    (deepSeekChat dsCfg p rc).messages
      = [⟨"system", "You are " ++ rc.name ++ " " ++ rc.description⟩,
         ⟨"user", formatQuestion rc.prompt_template p⟩]
    ∧ (p ≠ "" →
       (rc.max_tokens = none ∨ ∃ t, rc.max_tokens = some t ∧ 1 ≤ t ∧ t ≤ 32000) →
       payloadMessages (openRouterChat orCfg p rc)
         = some [⟨"system", "You are " ++ rc.name ++ " " ++ rc.description⟩,
                 ⟨"user", formatQuestion rc.prompt_template p⟩]) := by
  constructor
  · rfl
  · intro hp hmt
    rw [openRouterChat, if_neg hp]
    rcases hmt with hnone | ⟨t, ht, h1, h2⟩
    · simp [openRouterChatCompletionPayload, hnone, composeMessages, payloadMessages]
    · simp [openRouterChatCompletionPayload, ht, validateMaxTokens, h1, h2,
        composeMessages, payloadMessages]

/-- C4 witness: role `Analyst` / `reviews data` with template
`Question: \x7bquestion\x7d` and prompt `What is X?` yields system
`You are Analyst reviews data` and user `Question: What is X?` on both
providers. -/
theorem chat_composes_role_messages_witness :
    (deepSeekChat dsCfg0 "What is X?" rc0).messages
      = [⟨"system", "You are Analyst reviews data"⟩, ⟨"user", "Question: What is X?"⟩]
    ∧ payloadMessages (openRouterChat orCfg0 "What is X?" rc0)
      = some [⟨"system", "You are Analyst reviews data"⟩, ⟨"user", "Question: What is X?"⟩] :=
  ⟨(chat_composes_role_messages orCfg0 dsCfg0 rc0 "What is X?").1,
   (chat_composes_role_messages orCfg0 dsCfg0 rc0 "What is X?").2 (by decide)
     (Or.inr ⟨100, rfl, by decide, by decide⟩)⟩

/-- C4 counterexample: OpenRouter's `chat` on the empty prompt raises
`ConfigurationError("Prompt and role are required")` (`not prompt` is
true for `""`), so no two-message payload is composed — the claim's
"every prompt" fails at `""`. -/
theorem openrouter_chat_empty_prompt_rejected :
    openRouterChat orCfg0 "" rc0
      = .error (.configurationError "Prompt and role are required" none (.obj []))
    ∧ payloadMessages (openRouterChat orCfg0 "" rc0) = none :=
  ⟨rfl, rfl⟩

/-- C5: the role `rc0` specifies temperature `0.0`, yet DeepSeek's `chat`
sends the provider default `0.7` (`temperature or self.default_temperature`
treats `0.0` as falsy), while OpenRouter's `chat` correctly sends `0.0`.
This evaluates the code at the failing input of the claim. -/
theorem deepseek_chat_drops_zero_temperature :
    rc0.temperature = some (mkRat 0 1)
    ∧ dsCfg0.defaultTemperature = mkRat 7 10
    ∧ (deepSeekChat dsCfg0 "hi" rc0).temperature = mkRat 7 10
    ∧ mkRat 7 10 ≠ mkRat 0 1
    ∧ payloadTemperature (openRouterChat orCfg0 "hi" rc0) = some (mkRat 0 1) :=
  ⟨rfl, rfl, rfl, by decide, rfl⟩

/-- C6: `get_api` on an unknown name raises `KeyError` (it subscripts the
registry directly), contradicting the claim and the method's own
`Optional`/docstring contract of returning `None`; a registered name does
return the registered instance. -/
theorem get_api_unknown_raises_key_error :
    getApi [] "deepseek" = .error (.keyError "deepseek")
    ∧ getApi (addApi [] ⟨"openrouter", "instance-1"⟩) "openrouter"
        = .ok ⟨"openrouter", "instance-1"⟩ :=
  ⟨rfl, rfl⟩

/-- In every role-manager state reachable through the class's own
operations, the active-agent set is empty: `create_agent` never registers
the agents it returns. -/
lemma rmReachable_activeRoles_nil {s : RMState} (hs : RMReachable s) :
    s.activeRoles = [] := by
  induction hs with
  | init => rfl
  | load fc _ ih =>
    cases fc with
    | none => simpa [loadTemplates] using ih
    | some fields => simpa [loadTemplates] using ih
  | termAll _ ih => simpa [terminateAllAgents] using ih

/-- C7: in every reachable role-manager state, `create_agent` on an
unknown role name returns `None`, `terminate_agent` on an unknown agent
id returns `False` without raising, and after `terminate_all_agents` the
active-agent set is empty (it is empty in every reachable state, since
`create_agent` never registers agents and `terminate_all_agents` never
removes them). -/
theorem role_manager_lifecycle (s : RMState) (hs : RMReachable s)
    (roleName agentId : String) (hrole : getRole s roleName = none) :
    createAgent s roleName = none
    ∧ terminateAgent s agentId = false
    ∧ (terminateAllAgents s).activeRoles = [] := by
  have hempty := rmReachable_activeRoles_nil hs
  refine ⟨?_, ?_, ?_⟩
  · simp [createAgent, hrole]
  · simp [terminateAgent, hempty, List.lookup]
  · simpa [terminateAllAgents] using hempty

/-- C7 witness: after loading one template, `create_agent("unknown")` is
`None`, `terminate_agent("unknown-id")` is `False`, and
`terminate_all_agents` leaves the active set empty. -/
theorem role_manager_lifecycle_witness :
    createAgent rmLoaded "unknown" = none
    ∧ terminateAgent rmLoaded "unknown-id" = false
    ∧ (terminateAllAgents rmLoaded).activeRoles = [] :=
  role_manager_lifecycle rmLoaded
    (RMReachable.load (some [("analyst", analystTemplate)]) RMReachable.init)
    "unknown" "unknown-id" rfl

/-- C8: on a non-success response whose body cannot be parsed, the code
does fall back to `\x7b"error": "Unknown error"\x7d`, but the message
extraction then calls `.get` on the string `"Unknown error"` and escapes
with `AttributeError` — for every status, 401 included — instead of
raising the typed error of the status mapping. When the parsed body has a
nested `error.message`, that message is the one extracted. -/
theorem error_classification_unparseable_body_escapes :
    errorDataOf none = .obj [("error", .str "Unknown error")]
    ∧ handleErrorResponse ⟨500, none⟩
        = .attributeError "'str' object has no attribute 'get'"
    ∧ handleErrorResponse ⟨401, none⟩
        = .attributeError "'str' object has no attribute 'get'"
    ∧ extractErrorMsg (.obj [("error", .obj [("message", .str "boom")])]) = .ok "boom" :=
  ⟨rfl, rfl, rfl, rfl⟩

/-- C9: `load_templates` stores the parsed JSON dicts unconverted, so the
agent `create_agent` returns wraps a raw `Json` object, not a
`RoleConfig`; attribute access (`role.role_config.name`, as `chat`'s role
composition performs) raises `AttributeError` on it. -/
theorem create_agent_holds_raw_json_not_roleconfig :
    createAgent rmLoaded "analyst" = some ⟨analystTemplate⟩
    ∧ pyAttr analystTemplate "name"
        = .error (.attributeError "'dict' object has no attribute 'name'")
    ∧ pyAttr analystTemplate "prompt_template"
        = .error (.attributeError "'dict' object has no attribute 'prompt_template'") :=
  ⟨rfl, rfl, rfl⟩

/-- C10 (amended): in the API Manager, the second registration under a
name is what every subsequent lookup returns, regardless of interleaved
lookups (lookups do not mutate it). In the Tokenizer Service this holds
only when the name has not been instantiated yet: a `get_tokenizer` call
between the registrations caches an instance of the first class, which
every later lookup keeps returning. -/
theorem registry_last_registration_wins :
    (∀ (apis : List (String × ProviderInst)) (a1 a2 : ProviderInst),
      a1.api_name = a2.api_name →
      getApi (addApi (addApi apis a1) a2) a2.api_name = .ok a2)
    ∧ (∀ (s : TokSvcState) (name classTag : String) (modelDir : Option String),
      s.tokenizers.lookup name = none →
      getTokenizerClassTag (registerTokenizer s name classTag) name modelDir
        = some classTag) := by
  constructor
  · intro apis a1 a2 _
    simp [getApi, addApi, lookup_dictSet_self]
  · intro s name classTag modelDir hfresh
    simp [getTokenizerClassTag, getTokenizer, registerTokenizer,
      lookup_dictSet_self, hfresh]

/-- C10 witness: re-registering `openrouter` makes `get_api` return the
second instance; re-registering a tokenizer name that was never looked up
makes `get_tokenizer` instantiate the second class. -/
theorem registry_last_registration_wins_witness :
    getApi (addApi (addApi [] ⟨"openrouter", "first"⟩) ⟨"openrouter", "second"⟩) "openrouter"
      = .ok ⟨"openrouter", "second"⟩
    ∧ getTokenizerClassTag (registerTokenizer tokSvcInit "t" "B") "t" none = some "B" :=
  ⟨registry_last_registration_wins.1 [] ⟨"openrouter", "first"⟩ ⟨"openrouter", "second"⟩ rfl,
   registry_last_registration_wins.2 tokSvcInit "t" "B" none rfl⟩

/-- C10 counterexample: register class `A` under `t`, look `t` up once
(instantiating and caching an `A` instance), then register class `B`
under `t`: the next lookup still returns the cached instance of `A`, so
the second registration is not what subsequent lookups return. -/
theorem tokenizer_reregistration_after_lookup_stale :
    getTokenizerClassTag tokS3 "t" none = some "A"
    ∧ ("A" : String) ≠ "B" :=
  ⟨rfl, by decide⟩

end Deepcision
